import Mathlib

/-!
Shallow embedding of the request-authentication core of the eddeyar
classifieds application: the Session Verifier (getUserFromCookies), the
Route Guard (middleware), the MongoDB module-load logic (mongodb.ts) and
the options-by-id GET route handler.

Machine conventions: time is a Nat (seconds); a JWT is modelled as a
structure carrying its payload, optional expiry claim and a signature
string; signing is an injective-enough concrete tagging function mkSig,
so that a forged or wrong-secret signature is expressible.  Fallible
operations return Except; caught exceptions become explicit matches.
-/

/-- Decoded JWT payload as the application reads it: all claim fields are
dynamically accessed in the source, hence optional here. -/
structure Payload where
  id : Option String
  email : Option String
  roleName : Option String
  samsar : Option Bool
deriving DecidableEq, Repr

/-- A session token: payload, optional exp claim, and signature. -/
structure Token where
  payload : Payload
  exp : Option Nat
  sig : String
deriving DecidableEq, Repr

/-- Model of HMAC signing: a concrete tag determined by the secret and the
signed content.  Verification checks equality with this tag. -/
def mkSig (secret : String) (p : Payload) (e : Option Nat) : String :=
  "HS256|" ++ secret ++ "|" ++ (p.id.getD "_") ++ "|" ++ (p.email.getD "_")
    ++ "|" ++ (p.roleName.getD "_")
    ++ "|" ++ (match p.samsar with | none => "_" | some true => "t" | some false => "f")
    ++ "|" ++ (match e with | none => "_" | some x => toString x)

/-- Build a correctly signed token for a given secret. -/
def mkToken (secret : String) (p : Payload) (e : Option Nat) : Token :=
  Token.mk p e (mkSig secret p e)

/-- Model of jose jwtVerify: throws (Except.error) on bad signature or on
an expired exp claim, otherwise returns the payload. -/
def jwtVerify (t : Token) (secret : String) (now : Nat) : Except String Payload :=
  if t.sig = mkSig secret t.payload t.exp then
    match t.exp with
    | none => Except.ok t.payload
    | some e => if now < e then Except.ok t.payload else Except.error "ERR_JWT_EXPIRED"
  else Except.error "signature verification failed"

/-- Model of new TextEncoder().encode(process.env.JWT_SECRET): an absent
environment variable encodes like the empty string. -/
def encodeSecret : Option String → String
  | none => ""
  | some s => s

/-- The request cookie store: a name-to-token association list. -/
def CookieStore := List (String × Token)

/-- cookieStore.get(name): first cookie with the given name. -/
def cookieGet : List (String × Token) → String → Option Token
  | [], _ => none
  | (k, v) :: rest, name => if k = name then some v else cookieGet rest name

/-- The identity object built by getUserFromCookies:
id, email, role (from payload.roleName) and the samsar flag. -/
structure UserData where
  id : Option String
  email : Option String
  role : Option String
  samsar : Option Bool
deriving DecidableEq, Repr

/-- getUserFromCookies with its effects made explicit: result, the cookie
store after the call (cookies are only read, never written), and the list
of console.log lines emitted.  Looks up the jwt cookie; absent means no
identity; otherwise verifies, catching any verification failure. -/
def getUserFromCookiesEff (c : List (String × Token)) (jwtSecret : Option String)
    (now : Nat) : Option UserData × List (String × Token) × List String :=
  match cookieGet c "jwt" with
  | none => (none, c, [])
  | some t =>
    match jwtVerify t (encodeSecret jwtSecret) now with
    | Except.ok payload =>
        (some (UserData.mk payload.id payload.email payload.roleName payload.samsar), c, [])
    | Except.error e => (none, c, ["JWT verification failed: " ++ e])

/-- getUserFromCookies: the value returned to the caller. -/
def getUserFromCookies (c : List (String × Token)) (jwtSecret : Option String)
    (now : Nat) : Option UserData :=
  (getUserFromCookiesEff c jwtSecret now).1

/-- Character-list core of the JS startsWith test. -/
def charsStart : List Char → List Char → Bool
  | _, [] => true
  | [], _ :: _ => false
  | c :: cs, p :: ps => c = p && charsStart cs ps

/-- Model of JS String.prototype.startsWith. -/
def strStartsWith (s p : String) : Bool := charsStart s.toList p.toList

/-- The protected-path test from the middleware, verbatim:
path.startsWith of /fr/my, or of /ar/my, or of /fr/admin. -/
def isProtected (path : String) : Bool :=
  strStartsWith path "/fr/my" || strStartsWith path "/ar/my" || strStartsWith path "/fr/admin"

/-- Outcome of the middleware: NextResponse.next() for the favicon skip,
a redirect carrying the rewritten pathname, or the hand-off to
I18nMiddleware with the original path (pass-through). -/
inductive MWResult where
  | next : MWResult
  | redirect : String → MWResult
  | i18n : String → MWResult
deriving DecidableEq, Repr

/-- The middleware: skip /favicon.ico; compute userData; if the path is
protected and userData is null, redirect to the fixed login pathname
/p/users/connexion; otherwise hand the request to the locale router. -/
def middleware (path : String) (c : List (String × Token)) (jwtSecret : Option String)
    (now : Nat) : MWResult :=
  if path = "/favicon.ico" then MWResult.next
  else if isProtected path && (getUserFromCookies c jwtSecret now).isNone then
    MWResult.redirect "/p/users/connexion"
  else MWResult.i18n path

/-- Process environment variables consumed by the embedded modules. -/
structure Env where
  DATABASE_URL : Option String
  DATABASE_NAME : Option String
  MONGODB_DATABASE : Option String
  JWT_SECRET : Option String
deriving DecidableEq, Repr

/-- JavaScript truthiness of a string environment variable: present and
non-empty. -/
def truthy : Option String → Bool
  | none => false
  | some s => s != ""

/-- One attempt of the regex at a position just after a slash: the greedy
run of characters other than slash and question mark must be non-empty and
be followed by a question mark or the end of the string. -/
def uriMatchAt (cs : List Char) : Option (List Char) :=
  match cs.span (fun ch => ch != '/' && ch != '?') with
  | ([], _) => none
  | (run, []) => some run
  | (run, '?' :: _) => some run
  | (_, _) => none

/-- Leftmost match of the pattern: scan for a slash whose following run
matches. -/
def uriScan : List Char → Option (List Char)
  | [] => none
  | '/' :: rest =>
    match uriMatchAt rest with
    | some r => some r
    | none => uriScan rest
  | _ :: rest => uriScan rest

/-- uri.match with the pattern slash, captured run of non-slash
non-question-mark characters, then question mark or end: the captured
group of the first match, if any. -/
def extractDbFromUri (s : String) : Option String :=
  (uriScan s.toList).map fun cs => String.mk cs

/-- getDatabaseName from mongodb.ts: DATABASE_NAME when truthy, else the
database segment extracted from the URI, else MONGODB_DATABASE when
truthy, else the literal rim-ebay. -/
def getDatabaseName (env : Env) (uri : String) : String :=
  if truthy env.DATABASE_NAME then env.DATABASE_NAME.getD ""
  else
    match extractDbFromUri uri with
    | some d => d
    | none => if truthy env.MONGODB_DATABASE then env.MONGODB_DATABASE.getD "" else "rim-ebay"

/-- Module load of mongodb.ts: throws when DATABASE_URL is falsy, else
fixes the database name once via getDatabaseName. -/
def mongodbStartup (env : Env) : Except String String :=
  if truthy env.DATABASE_URL then
    Except.ok (getDatabaseName env (env.DATABASE_URL.getD ""))
  else Except.error "Please add MONGODB_URI or DATABASE_URL to your .env"

/-- The database name every getDb call targets: the one fixed at module
load (none when module load threw). -/
def getDb (env : Env) : Option String :=
  (mongodbStartup env).toOption

/-- A row returned by the SQL query; shape is irrelevant to the handler. -/
structure Row where
  id : String
  fields : List (String × String)
deriving DecidableEq, Repr

/-- JSON body of a response from the options-by-id GET handler. -/
inductive RespBody where
  | nullB : RespBody
  | rowB : Row → RespBody
  | errB : Bool → String → RespBody
deriving DecidableEq, Repr

/-- An HTTP response: status code and JSON body. -/
structure Response where
  status : Nat
  body : RespBody
deriving DecidableEq, Repr

/-- The options-by-id GET handler: params resolution may throw (caught as
500); a falsy id is a 400; the query may throw (caught as 500); otherwise
row zero or null is returned with status 200. -/
def optionsByIdGET (params : Except Unit String) (db : String → Except Unit (List Row)) :
    Response :=
  match params with
  | Except.error _ => Response.mk 500 (RespBody.errB false "Erreur serveur")
  | Except.ok id =>
    if id = "" then Response.mk 400 (RespBody.errB false "Champs obligatoires manquants")
    else
      match db id with
      | Except.error _ => Response.mk 500 (RespBody.errB false "Erreur serveur")
      | Except.ok rows =>
        Response.mk 200 (match rows.head? with
          | none => RespBody.nullB
          | some r => RespBody.rowB r)

/-! ### Helper lemmas -/

theorem gufc_nil (s : Option String) (n : Nat) : getUserFromCookies [] s n = none := rfl

theorem isProtected_ne_favicon (p : String) (h : isProtected p = true) :
    p ≠ "/favicon.ico" := by
  intro he
  subst he
  exact absurd h (by decide)

theorem middleware_no_user (p : String) (c : List (String × Token)) (s : Option String)
    (n : Nat) (hp : isProtected p = true) (hu : getUserFromCookies c s n = none) :
    middleware p c s n = MWResult.redirect "/p/users/connexion" := by
  unfold middleware
  rw [if_neg (isProtected_ne_favicon p hp)]
  simp [hp, hu]

theorem jwtVerify_mkToken (sec : String) (pl : Payload) (e : Option Nat) (n : Nat)
    (he : ∀ x, e = some x → n < x) :
    jwtVerify (mkToken sec pl e) sec n = Except.ok pl := by
  unfold jwtVerify mkToken
  rw [if_pos rfl]
  cases e with
  | none => rfl
  | some x => simp [he x rfl]

theorem gufc_mkToken (s : Option String) (pl : Payload) (e : Option Nat) (n : Nat)
    (he : ∀ x, e = some x → n < x) :
    getUserFromCookiesEff [("jwt", mkToken (encodeSecret s) pl e)] s n
      = (some (UserData.mk pl.id pl.email pl.roleName pl.samsar),
         [("jwt", mkToken (encodeSecret s) pl e)], []) := by
  unfold getUserFromCookiesEff
  simp [cookieGet, jwtVerify_mkToken _ _ _ _ he]

theorem gufcEff_store (c : List (String × Token)) (s : Option String) (n : Nat) :
    (getUserFromCookiesEff c s n).2.1 = c := by
  unfold getUserFromCookiesEff
  cases hc : cookieGet c "jwt" with
  | none => rfl
  | some t =>
    cases hv : jwtVerify t (encodeSecret s) n with
    | ok pl => simp [hv]
    | error e => simp [hv]

/-! ### Claim theorems -/

/-- C1 counterexample: the path /ar/admin/panel begins with the ar-locale
administrative prefix /ar/admin, yet the Route Guard classifies it public
and passes it through even with no cookie at all. -/
theorem ar_admin_not_protected_cex :
    strStartsWith "/ar/admin/panel" "/ar/admin" = true
    ∧ isProtected "/ar/admin/panel" = false
    ∧ middleware "/ar/admin/panel" [] none 0 = MWResult.i18n "/ar/admin/panel" := by
  decide

/-- C1 (amended): the protected prefixes are exactly /fr/my, /ar/my and
/fr/admin — the ar-locale administrative prefix is absent.  On an empty
cookie store, the Route Guard redirects a non-favicon path exactly when it
begins with one of those three prefixes; every other path is public. -/
theorem protected_prefix_classification (p : String) (s : Option String) (n : Nat)
    (h : p ≠ "/favicon.ico") :
    middleware p [] s n = MWResult.redirect "/p/users/connexion"
    ↔ (strStartsWith p "/fr/my" = true ∨ strStartsWith p "/ar/my" = true
       ∨ strStartsWith p "/fr/admin" = true) := by
  unfold middleware
  rw [if_neg h, gufc_nil]
  cases hip : isProtected p with
  | true =>
    simp only [hip, Option.isNone_none, Bool.and_self, if_true]
    unfold isProtected at hip
    simp only [Bool.or_eq_true] at hip
    tauto
  | false =>
    unfold isProtected at hip
    simp only [Bool.or_eq_false_iff] at hip
    simp [hip.1.1, hip.1.2, hip.2]

/-- C1 witness: a concrete protected path with no cookie redirects. -/
theorem protected_prefix_classification_w :
    middleware "/fr/my/list" [] none 0 = MWResult.redirect "/p/users/connexion" :=
  (protected_prefix_classification "/fr/my/list" none 0 (by decide)).mpr
    (Or.inl (by decide))

/-- C2 counterexample: with no cookie, the request for /ar/my/list is
redirected to the fixed pathname /p/users/connexion, not to the
locale-preserving /ar/p/users/connexion the claim predicts. -/
theorem redirect_drops_locale_cex :
    middleware "/ar/my/list" [] none 0 = MWResult.redirect "/p/users/connexion"
    ∧ middleware "/ar/my/list" [] none 0 ≠ MWResult.redirect "/ar/p/users/connexion" := by
  decide

/-- C2 (amended): for every protected-prefixed path with no session cookie
the Route Guard redirects to the fixed login pathname /p/users/connexion,
with no locale prefix. -/
theorem redirect_target_fixed_login (p : String) (c : List (String × Token))
    (s : Option String) (n : Nat) (hp : isProtected p = true)
    (hc : cookieGet c "jwt" = none) :
    middleware p c s n = MWResult.redirect "/p/users/connexion" := by
  apply middleware_no_user p c s n hp
  unfold getUserFromCookies getUserFromCookiesEff
  rw [hc]

/-- C2 witness: the concrete scenario of the claim. -/
theorem redirect_target_fixed_login_w :
    middleware "/ar/my/list" [] none 0 = MWResult.redirect "/p/users/connexion" :=
  redirect_target_fixed_login "/ar/my/list" [] none 0 (by decide) rfl

/-- C3: the Session Verifier is total — it returns either no identity or
some identity, never an error — and on a protected path a token that fails
verification (bad signature, expired or malformed) produces exactly the
outcome of having no cookie at all: the redirect to the login pathname. -/
theorem verifier_total_and_invalid_token_redirects :
    (∀ (c : List (String × Token)) (s : Option String) (n : Nat),
      getUserFromCookies c s n = none ∨ ∃ u, getUserFromCookies c s n = some u)
    ∧ (∀ (p : String) (t : Token) (s : Option String) (n : Nat),
        isProtected p = true →
        (∃ e, jwtVerify t (encodeSecret s) n = Except.error e) →
        middleware p [("jwt", t)] s n = MWResult.redirect "/p/users/connexion"
        ∧ middleware p [] s n = MWResult.redirect "/p/users/connexion") := by
  constructor
  · intro c s n
    cases h : getUserFromCookies c s n with
    | none => exact Or.inl rfl
    | some u => exact Or.inr ⟨u, rfl⟩
  · intro p t s n hp he
    obtain ⟨e, he⟩ := he
    constructor
    · apply middleware_no_user p _ s n hp
      unfold getUserFromCookies getUserFromCookiesEff
      simp [cookieGet, he]
    · exact middleware_no_user p [] s n hp rfl

/-- C3 witness: a concrete forged-signature token on a protected path. -/
theorem verifier_total_and_invalid_token_redirects_w :
    middleware "/ar/my/x"
      [("jwt", Token.mk (Payload.mk (some "u1") none none none) none "forged")]
      (some "k") 5 = MWResult.redirect "/p/users/connexion" :=
  (verifier_total_and_invalid_token_redirects.2 "/ar/my/x"
    (Token.mk (Payload.mk (some "u1") none none none) none "forged") (some "k") 5
    (by decide) ⟨"signature verification failed", by rfl⟩).1

/-- C4: every request whose path matches none of the protected prefixes is
passed through — NextResponse.next for the favicon skip or the hand-off to
the locale router — whatever the cookie store holds. -/
theorem public_path_passthrough (p : String) (c : List (String × Token))
    (s : Option String) (n : Nat) (h : isProtected p = false) :
    middleware p c s n = MWResult.next ∨ middleware p c s n = MWResult.i18n p := by
  unfold middleware
  by_cases hf : p = "/favicon.ico"
  · rw [if_pos hf]
    exact Or.inl rfl
  · rw [if_neg hf, h]
    simp

/-- C4 witness: the public homepage path with an arbitrary cookie. -/
theorem public_path_passthrough_w :
    middleware "/fr/" [("jwt", Token.mk (Payload.mk none none none none) none "x")] none 0
      = MWResult.next
    ∨ middleware "/fr/" [("jwt", Token.mk (Payload.mk none none none none) none "x")] none 0
      = MWResult.i18n "/fr/" :=
  public_path_passthrough "/fr/"
    [("jwt", Token.mk (Payload.mk none none none none) none "x")] none 0 (by decide)

/-- C5: on a protected path, a correctly signed and unexpired token is
passed through to the locale router, and the identity the Session Verifier
rebuilds carries exactly the subject id that was encoded in the token. -/
theorem valid_token_passthrough_subject (p : String) (s : String) (pl : Payload)
    (e : Option Nat) (n : Nat) (hp : isProtected p = true)
    (he : ∀ x, e = some x → n < x) :
    middleware p [("jwt", mkToken (encodeSecret (some s)) pl e)] (some s) n
      = MWResult.i18n p
    ∧ getUserFromCookies [("jwt", mkToken (encodeSecret (some s)) pl e)] (some s) n
        = some (UserData.mk pl.id pl.email pl.roleName pl.samsar) := by
  have hu : getUserFromCookies [("jwt", mkToken (encodeSecret (some s)) pl e)] (some s) n
      = some (UserData.mk pl.id pl.email pl.roleName pl.samsar) := by
    unfold getUserFromCookies
    rw [gufc_mkToken (some s) pl e n he]
  refine ⟨?_, hu⟩
  unfold middleware
  rw [if_neg (isProtected_ne_favicon p hp), hu]
  simp

/-- C5 witness: the scenario of the claim — /fr/admin/panel with a valid
token for subject u1 passes through and the identity subject is u1. -/
theorem valid_token_passthrough_subject_w :
    middleware "/fr/admin/panel"
      [("jwt", mkToken (encodeSecret (some "k")) (Payload.mk (some "u1") none none none)
          (some 100))] (some "k") 0 = MWResult.i18n "/fr/admin/panel"
    ∧ getUserFromCookies
        [("jwt", mkToken (encodeSecret (some "k")) (Payload.mk (some "u1") none none none)
            (some 100))] (some "k") 0
        = some (UserData.mk (some "u1") none none none) :=
  valid_token_passthrough_subject "/fr/admin/panel" "k"
    (Payload.mk (some "u1") none none none) (some 100) 0 (by decide)
    (by intro x hx; cases hx; decide)

/-- C6 counterexample: with JWT_SECRET absent from the environment,
module start-up succeeds (the only start-up throw guards DATABASE_URL),
so absence of the token-verification secret is not a fatal configuration
error. -/
theorem startup_ignores_jwt_secret_cex :
    (Env.mk (some "mongodb://h/db") none none none).JWT_SECRET = none
    ∧ mongodbStartup (Env.mk (some "mongodb://h/db") none none none)
        = Except.ok "db" :=
  ⟨rfl, rfl⟩

/-- C6 (amended): start-up fails exactly when the database connection URI
is falsy; it never inspects JWT_SECRET; a missing secret surfaces only
per-request as verification failure against the empty secret, which the
guard treats as no identity — a redirect, never a raised error. -/
theorem startup_checks_database_url_only (env : Env) :
    ((mongodbStartup env).isOk = true ↔ truthy env.DATABASE_URL = true)
    ∧ (∀ s : Option String,
        mongodbStartup (Env.mk env.DATABASE_URL env.DATABASE_NAME env.MONGODB_DATABASE s)
          = mongodbStartup env)
    ∧ (∀ (p : String) (t : Token) (n : Nat), isProtected p = true →
        t.sig ≠ mkSig "" t.payload t.exp →
        middleware p [("jwt", t)] none n = MWResult.redirect "/p/users/connexion") := by
  refine ⟨?_, ?_, ?_⟩
  · unfold mongodbStartup
    cases ht : truthy env.DATABASE_URL with
    | true => simp [Except.isOk, Except.toBool]
    | false => simp [Except.isOk, Except.toBool]
  · intro s
    unfold mongodbStartup getDatabaseName
    rfl
  · intro p t n hp hsig
    apply middleware_no_user p _ none n hp
    have hv : jwtVerify t (encodeSecret none) n
        = Except.error "signature verification failed" := by
      unfold jwtVerify
      simp only [encodeSecret]
      rw [if_neg hsig]
    unfold getUserFromCookies getUserFromCookiesEff
    simp [cookieGet, hv]

/-- C6 witness: concrete forged token with no secret configured yields the
redirect, and concrete start-up facts hold. -/
theorem startup_checks_database_url_only_w :
    middleware "/fr/my/a"
      [("jwt", Token.mk (Payload.mk none none none none) none "zz")] none 0
      = MWResult.redirect "/p/users/connexion" :=
  (startup_checks_database_url_only (Env.mk none none none none)).2.2 "/fr/my/a"
    (Token.mk (Payload.mk none none none none) none "zz") 0 (by decide) (by decide)

/-- C7: a token that verifies but whose payload is missing any of the
expected fields still yields an identity, with the missing fields absent
rather than a failure — stated for every payload, so in particular for
payloads with all four fields absent. -/
theorem missing_fields_yield_absent_identity (s : Option String) (pl : Payload)
    (e : Option Nat) (n : Nat) (he : ∀ x, e = some x → n < x) :
    getUserFromCookies [("jwt", mkToken (encodeSecret s) pl e)] s n
      = some (UserData.mk pl.id pl.email pl.roleName pl.samsar) := by
  unfold getUserFromCookies
  rw [gufc_mkToken s pl e n he]

/-- C7 witness: the all-fields-absent payload still produces an identity
whose fields are all absent. -/
theorem missing_fields_yield_absent_identity_w :
    getUserFromCookies
      [("jwt", mkToken (encodeSecret (some "k")) (Payload.mk none none none none) none)]
      (some "k") 0 = some (UserData.mk none none none none) :=
  missing_fields_yield_absent_identity (some "k") (Payload.mk none none none none) none 0
    (by intro x hx; cases hx)

/-- C8: verification is idempotent and effect-free — when a call yields an
identity, a second call on the cookie store left by the first yields an
identity with identical field values, the store is unchanged (the token is
not consumed) and nothing is logged. -/
theorem verify_idempotent_no_side_effects (c : List (String × Token))
    (s : Option String) (n : Nat) (u : UserData)
    (h : getUserFromCookies c s n = some u) :
    (getUserFromCookiesEff c s n).1 = some u
    ∧ (getUserFromCookiesEff (getUserFromCookiesEff c s n).2.1 s n).1 = some u
    ∧ (getUserFromCookiesEff c s n).2.1 = c
    ∧ (getUserFromCookiesEff c s n).2.2 = [] := by
  have hst : (getUserFromCookiesEff c s n).2.1 = c := gufcEff_store c s n
  refine ⟨h, ?_, hst, ?_⟩
  · rw [hst]
    exact h
  · unfold getUserFromCookies at h
    unfold getUserFromCookiesEff at h ⊢
    cases hc : cookieGet c "jwt" with
    | none => simp [hc] at h
    | some t =>
      cases hv : jwtVerify t (encodeSecret s) n with
      | ok pl => simp [hv]
      | error e => simp [hc, hv] at h

/-- C8 witness: a concrete valid token verified twice. -/
theorem verify_idempotent_no_side_effects_w :
    (getUserFromCookiesEff
        [("jwt", mkToken "k" (Payload.mk (some "u1") none none none) none)] (some "k") 0).1
      = some (UserData.mk (some "u1") none none none)
    ∧ (getUserFromCookiesEff
        (getUserFromCookiesEff
          [("jwt", mkToken "k" (Payload.mk (some "u1") none none none) none)]
          (some "k") 0).2.1 (some "k") 0).1
      = some (UserData.mk (some "u1") none none none)
    ∧ (getUserFromCookiesEff
        [("jwt", mkToken "k" (Payload.mk (some "u1") none none none) none)] (some "k") 0).2.1
      = [("jwt", mkToken "k" (Payload.mk (some "u1") none none none) none)]
    ∧ (getUserFromCookiesEff
        [("jwt", mkToken "k" (Payload.mk (some "u1") none none none) none)] (some "k") 0).2.2
      = [] :=
  verify_idempotent_no_side_effects
    [("jwt", mkToken "k" (Payload.mk (some "u1") none none none) none)] (some "k") 0
    (UserData.mk (some "u1") none none none) (by rfl)

/-- C9: the database name is fixed once at module load and every getDb
call targets it; its value follows the precedence DATABASE_NAME if truthy,
else the regex-extracted URI path segment, else MONGODB_DATABASE if
truthy, else the literal rim-ebay. -/
theorem database_name_precedence (env : Env) (uri : String)
    (h : env.DATABASE_URL = some uri) (hu : uri ≠ "") :
    getDb env = some (getDatabaseName env uri)
    ∧ (truthy env.DATABASE_NAME = true →
        getDatabaseName env uri = env.DATABASE_NAME.getD "")
    ∧ (truthy env.DATABASE_NAME = false → ∀ d, extractDbFromUri uri = some d →
        getDatabaseName env uri = d)
    ∧ (truthy env.DATABASE_NAME = false → extractDbFromUri uri = none →
        truthy env.MONGODB_DATABASE = true →
        getDatabaseName env uri = env.MONGODB_DATABASE.getD "")
    ∧ (truthy env.DATABASE_NAME = false → extractDbFromUri uri = none →
        truthy env.MONGODB_DATABASE = false →
        getDatabaseName env uri = "rim-ebay") := by
  refine ⟨?_, ?_, ?_, ?_, ?_⟩
  · unfold getDb mongodbStartup
    rw [h]
    have ht : truthy (some uri) = true := by simp [truthy, hu]
    rw [if_pos ht]
    rfl
  · intro hn
    unfold getDatabaseName
    rw [if_pos hn]
  · intro hn d hd
    unfold getDatabaseName
    rw [if_neg (by simp [hn]), hd]
  · intro hn hd hm
    unfold getDatabaseName
    rw [if_neg (by simp [hn]), hd]
    simp [hm]
  · intro hn hd hm
    unfold getDatabaseName
    rw [if_neg (by simp [hn]), hd]
    simp [hm]

/-- C9 witness: a URI carrying the database segment mydb, with no
overriding environment variables, yields mydb from getDb. -/
theorem database_name_precedence_w :
    getDb (Env.mk (some "mongodb://h/mydb") none none none) = some "mydb" := by
  have h := database_name_precedence (Env.mk (some "mongodb://h/mydb") none none none)
    "mongodb://h/mydb" rfl (by decide)
  rw [h.1, h.2.2.1 (by decide) "mydb" (by decide)]

/-- C10: the options-by-id GET handler answers 200 with body null when the
id is non-empty and no row matches; it answers 400 exactly when the id is
falsy; and a throw — in params resolution or in the query — yields 500
with the fixed generic error body, never a propagated exception. -/
theorem options_by_id_get_statuses :
    (∀ (id : String) (db : String → Except Unit (List Row)),
      id ≠ "" → db id = Except.ok [] →
      optionsByIdGET (Except.ok id) db = Response.mk 200 RespBody.nullB)
    ∧ (∀ (id : String) (db : String → Except Unit (List Row)),
        (optionsByIdGET (Except.ok id) db).status = 400 ↔ id = "")
    ∧ (∀ db : String → Except Unit (List Row),
        optionsByIdGET (Except.error ()) db
          = Response.mk 500 (RespBody.errB false "Erreur serveur"))
    ∧ (∀ (id : String) (db : String → Except Unit (List Row)),
        id ≠ "" → db id = Except.error () →
        optionsByIdGET (Except.ok id) db
          = Response.mk 500 (RespBody.errB false "Erreur serveur")) := by
  refine ⟨?_, ?_, ?_, ?_⟩
  · intro id db hid hdb
    simp [optionsByIdGET, hid, hdb]
  · intro id db
    by_cases hid : id = ""
    · simp [optionsByIdGET, hid]
    · cases hdb : db id with
      | ok rows => simp [optionsByIdGET, hid, hdb]
      | error e => simp [optionsByIdGET, hid, hdb]
  · intro db
    rfl
  · intro id db hid hdb
    simp [optionsByIdGET, hid, hdb]

/-- C10 witness: a non-empty id whose query matches no row gets the 200
null response. -/
theorem options_by_id_get_statuses_w :
    optionsByIdGET (Except.ok "42") (fun _ => Except.ok [])
      = Response.mk 200 RespBody.nullB :=
  options_by_id_get_statuses.1 "42" (fun _ => Except.ok []) (by decide) rfl
